import Mathlib

/-!
Shallow embedding of the capture/transcription/review orchestration layer of
the offline voice-to-text + grammar checker application (`src/main.py`), and
proofs of the specified properties of that layer.

External collaborators (the Vosk recognizer, the ffmpeg transcoder, the
LanguageTool grammar engine, the file system) are modelled as parameters:
pure state-transition functions for the recognizer, and result-valued
functions (with `Except` for operations that can raise a Python exception)
for the others.  The code under `src/main.py` is translated function by
function; names follow the source.
-/

/-- The six ASCII whitespace characters stripped by Python `str.strip()`
(space, tab, newline, carriage return, vertical tab, form feed). -/
def isPySpace (c : Char) : Bool :=
  c = ' ' || c = '\t' || c = '\n' || c = '\r' || c = Char.ofNat 11 || c = Char.ofNat 12

/-- Python `str.strip()`: remove leading and trailing whitespace. -/
def pyStrip (s : String) : String :=
  String.mk (((s.toList.dropWhile isPySpace).reverse.dropWhile isPySpace).reverse)

/-- Python `str.lower()` (ASCII case folding suffices for file extensions). -/
def pyLower (s : String) : String :=
  String.mk (s.toList.map Char.toLower)

/-- Python `str.startswith(pre)`. -/
def pyStartsWith (s pre : String) : Bool :=
  pre.toList.isPrefixOf s.toList

/-- Python `str.rfind`: highest index of `c` in the list, `-1` if absent. -/
def rfindAux (c : Char) : List Char → Int → Int → Int
  | [], _, best => best
  | x :: xs, i, best => rfindAux c xs (i + 1) (if x = c then i else best)

/-- `rfind s c` is the index of the last occurrence of `c`, or `-1`. -/
def rfind (s : List Char) (c : Char) : Int :=
  rfindAux c s 0 (-1)

/-- The extension component of `os.path.splitext` (posix): the suffix from the
last dot, provided that dot lies after the last path separator and that at
least one character of the basename before it is not itself a dot (leading
dots do not begin an extension). -/
def splitextExt (path : String) : String :=
  let p := path.toList
  let sepIndex := rfind p '/'
  let dotIndex := rfind p '.'
  if sepIndex < dotIndex then
    let base := (p.drop (sepIndex + 1).toNat).take (dotIndex - sepIndex - 1).toNat
    if base.any (fun c => c ≠ '.') then String.mk (p.drop dotIndex.toNat) else ""
  else ""

/-- The `KaldiRecognizer` collaborator interface consumed by the core, as a
pure state machine over an abstract state type `σ`:
`acceptWaveform` returns the new state and the utterance-boundary flag,
`result` and `finalResult` return the new state and the `"text"` field of the
JSON envelope they produce (`json.loads(...)["text"]`). -/
structure Recognizer (σ : Type) where
  acceptWaveform : σ → List Nat → σ × Bool
  result : σ → σ × String
  finalResult : σ → σ × String

/-- One observable external action performed by the file-transcription task. -/
inductive FileAction
  | runProc (args : List String)
  | readFile (path : String)
  | accept (data : List Nat)
  | result
  | finalResult
deriving DecidableEq, Repr

/-- `isAccept a` holds when `a` is a recognizer `accept` call. -/
def isAccept : FileAction → Bool
  | FileAction.accept _ => true
  | _ => false

/-- The environment of `load_audio_file`'s background task: file contents by
path, the ffmpeg invocation (which can raise, e.g. `FileNotFoundError` when
the executable is missing; on normal completion `subprocess.run` returns the
exit status and captured stdout without raising), and the shared recognizer. -/
structure FileEnv (σ : Type) where
  readBytes : String → List Nat
  ffmpeg : String → Except String (Int × List Nat)
  R : Recognizer σ

/-- The argument vector of the ffmpeg invocation in `load_audio_file`. -/
def ffmpegArgs (path : String) : List String :=
  ["ffmpeg", "-i", path, "-ar", "16000", "-ac", "1", "-f", "wav", "pipe:1"]

/-- Lines 155-159 of `src/main.py`: one `AcceptWaveform(data)` call on the
whole buffer; if it reports an utterance boundary, read `Result()` and take
its `"text"` field, otherwise the text is `""`.  Returns the text, the
recognizer state after the calls, and the trace of recognizer calls. -/
def feedRecognizer {σ : Type} (R : Recognizer σ) (rec : σ) (data : List Nat) :
    String × σ × List FileAction :=
  let step := R.acceptWaveform rec data
  if step.2 then
    let res := R.result step.1
    (res.2, res.1, [FileAction.accept data, FileAction.result])
  else
    ("", step.1, [FileAction.accept data])

/-- The body of the `try` block of `load_audio_file`'s task (lines 142-160):
transcode via ffmpeg unless the lowercased extension is `.wav` (reading the
file directly in that case), then feed the recognizer.  `Except.error`
models a raised Python exception. -/
def load_audio_body {σ : Type} (E : FileEnv σ) (rec : σ) (path : String) :
    Except String (String × σ) × List FileAction :=
  if pyLower (splitextExt path) ≠ ".wav" then
    match E.ffmpeg path with
    | Except.error e => (Except.error e, [FileAction.runProc (ffmpegArgs path)])
    | Except.ok out =>
        let fed := feedRecognizer E.R rec out.2
        (Except.ok (fed.1, fed.2.1), FileAction.runProc (ffmpegArgs path) :: fed.2.2)
  else
    let fed := feedRecognizer E.R rec (E.readBytes path)
    (Except.ok (fed.1, fed.2.1), FileAction.readFile path :: fed.2.2)

/-- The complete task closure of `load_audio_file` (lines 141-162): the `try`
body with its `except` clause, which converts any raised exception `e` into
the string `"Error: " ++ e` (so the task itself never raises). -/
def load_audio_task {σ : Type} (E : FileEnv σ) (rec : σ) (path : String) :
    (String × σ) × List FileAction :=
  match load_audio_body E rec path with
  | (Except.ok r, tr) => (r, tr)
  | (Except.error e, tr) => (("Error: " ++ e, rec), tr)

/-- The two text panes of the window: the input box (`text_box`) and the
output/correction box (`placeholder_box`).  `delete(1.0, END)` followed by
`insert(END, t)` is modelled as replacing the pane's contents with `t`. -/
structure UIState where
  text_box : String
  placeholder_box : String
deriving DecidableEq, Repr

/-- A modal dialog raised on the interactive surface, or none. -/
inductive Dialog
  | nodialog
  | showerror (title msg : String)
  | showwarning (title msg : String)
deriving DecidableEq, Repr

/-- `on_complete` of `load_audio_file` (lines 164-169): a result string
starting with `"Error:"` is shown in an error dialog and the input pane is
left untouched; any other string replaces the input pane's contents. -/
def load_on_complete (text : String) (ui : UIState) : UIState × Dialog :=
  if pyStartsWith text "Error:" then
    (ui, Dialog.showerror "Error" text)
  else
    ({ ui with text_box := text }, Dialog.nodialog)

/-- `load_audio_file` after a path has been chosen (lines 137-171): the input
pane is immediately replaced with the processing placeholder, the task runs
on a worker thread, and its result is marshalled to `on_complete`.  Returns
the final panes, the dialog raised, the recognizer state after the task, and
the trace of external actions. -/
def load_audio_file {σ : Type} (E : FileEnv σ) (rec : σ) (path : String)
    (ui : UIState) : UIState × Dialog × σ × List FileAction :=
  let ui1 := { ui with text_box := "Processing audio file..." }
  let task := load_audio_task E rec path
  let done := load_on_complete task.1.1 ui1
  (done.1, done.2, task.1.2, task.2)

/-- `run_in_thread` (lines 119-126): the worker calls `func()`; if that call
raises, the worker thread dies and the callback is never scheduled, so zero
results reach the interactive surface; otherwise the callback is scheduled
exactly once with the result.  The returned list is the list of results
marshalled back to the interactive thread. -/
def run_in_thread {α : Type} (func : Except String α) : List α :=
  match func with
  | Except.ok r => [r]
  | Except.error _ => []

/-- The callable handed to `run_in_thread` by `load_audio_file`: the task
body is wrapped entirely in `try`/`except`, so it never raises. -/
def file_func {σ : Type} (E : FileEnv σ) (rec : σ) (path : String) :
    Except String String :=
  Except.ok (load_audio_task E rec path).1.1

/-- The `language_tool_python.LanguageTool` collaborator: `check` yields a
list of matches and `correct` a corrected string; either call can raise
(`Except.error`), e.g. when the engine is unreachable. -/
structure GrammarEngine where
  check : String → Except String (List String)
  correct : String → Except String String

/-- One observable call into the grammar engine. -/
inductive EngineCall
  | check (text : String)
  | correct (text : String)
deriving DecidableEq, Repr

/-- The task closure of `submit_text` (lines 223-226), with no `try` guard:
`matches = check(raw)`, then `corrected = correct(raw) if matches else None`,
returning `(matches, corrected, raw)`.  A raised engine exception propagates
out of the closure.  The second component is the trace of engine calls made
before the closure returned or raised. -/
def grammar_task (G : GrammarEngine) (raw : String) :
    Except String (List String × Option String × String) × List EngineCall :=
  match G.check raw with
  | Except.error e => (Except.error e, [EngineCall.check raw])
  | Except.ok ms =>
    if ms.isEmpty then
      (Except.ok (ms, none, raw), [EngineCall.check raw])
    else
      match G.correct raw with
      | Except.error e => (Except.error e, [EngineCall.check raw, EngineCall.correct raw])
      | Except.ok c =>
          (Except.ok (ms, some c, raw), [EngineCall.check raw, EngineCall.correct raw])

/-- The callable handed to `run_in_thread` by `submit_text` (no guard). -/
def grammar_func (G : GrammarEngine) (raw : String) :
    Except String (List String × Option String × String) :=
  (grammar_task G raw).1

/-- The spec's `GrammarVerdict`: `Clean` or `Corrected(text)`. -/
inductive GrammarVerdict
  | clean
  | corrected (text : String)
deriving DecidableEq, Repr

/-- How a verdict appears in the output pane: the `Clean` sentinel is the
string `"CORRECT"`, a correction is displayed verbatim. -/
def displayVerdict : GrammarVerdict → String
  | GrammarVerdict.clean => "CORRECT"
  | GrammarVerdict.corrected t => t

/-- `on_complete` of `submit_text` (lines 228-234): clear the output pane,
then show `"CORRECT"` for zero matches, else the corrected text. -/
def grammar_on_complete (r : List String × Option String × String)
    (ui : UIState) : UIState :=
  if r.1.isEmpty then { ui with placeholder_box := "CORRECT" }
  else { ui with placeholder_box := r.2.1.getD "" }

/-- The observable outcome of one `submit_text` invocation. -/
structure SubmitResult where
  ui : UIState
  dialog : Dialog
  engineCalls : List EngineCall
  tasksStarted : Nat
deriving DecidableEq, Repr

/-- `submit_text` (lines 214-236): strip the input pane's text; if empty,
show the "No Content" warning and schedule nothing; otherwise show the
checking placeholder, start one worker task, and (when the task does not
raise) marshal its result to `on_complete`. -/
def submit_text (G : GrammarEngine) (input : String) (ui : UIState) : SubmitResult :=
  let raw := pyStrip input
  if raw = "" then
    { ui := ui, dialog := Dialog.showwarning "No Content" "The input box is empty.",
      engineCalls := [], tasksStarted := 0 }
  else
    let ui1 := { ui with placeholder_box := "Checking grammar..." }
    let task := grammar_task G raw
    match task.1 with
    | Except.ok r =>
        { ui := grammar_on_complete r ui1, dialog := Dialog.nodialog,
          engineCalls := task.2, tasksStarted := 1 }
    | Except.error _ =>
        { ui := ui1, dialog := Dialog.nodialog,
          engineCalls := task.2, tasksStarted := 1 }

/-- The application state touched by the push-to-talk path: the recording
flag, the accumulated microphone bytes, the shared recognizer state, and the
two panes. -/
structure AppState (σ : Type) where
  is_recording : Bool
  audio_data : List Nat
  recognizer : σ
  text_box : String
  placeholder_box : String

/-- `reset_app` (lines 110-113): clear both panes. -/
def reset_app {σ : Type} (s : AppState σ) : AppState σ :=
  { s with text_box := "", placeholder_box := "" }

/-- `start_walkie_talkie_recording` (lines 173-178): set the flag, clear both
panes via `reset_app`, insert the recording placeholder into the input pane,
and spawn the capture thread. -/
def start_walkie_talkie_recording {σ : Type} (s : AppState σ) : AppState σ :=
  let s1 := { s with is_recording := true }
  let s2 := reset_app s1
  { s2 with text_box := s2.text_box ++ "Recording... Speak now." }

/-- `stop_walkie_talkie_recording` (lines 180-182): clear the flag; the
capture loop observes it at its next iteration boundary. -/
def stop_walkie_talkie_recording {σ : Type} (s : AppState σ) : AppState σ :=
  { s with is_recording := false }

/-- The `while self.is_recording` loop of `record_microphone` (lines
196-200), run over the chunks read before the cleared flag was observed:
each chunk is appended to the accumulated audio and fed to the recognizer
(the boundary flag is ignored).  Returns the recognizer state and the
accumulated bytes. -/
def capture_loop {σ : Type} (R : Recognizer σ) :
    σ → List Nat → List (List Nat) → σ × List Nat
  | rec, acc, [] => (rec, acc)
  | rec, acc, d :: ds => capture_loop R (R.acceptWaveform rec d).1 (acc ++ d) ds

/-- `record_microphone` (lines 184-212): reset `audio_data` to empty, run the
capture loop over the chunks read during the session, then take the
recognizer's `FinalResult()` text and display it in the input pane.  The
accumulated audio is NOT cleared after the loop. -/
def record_microphone {σ : Type} (R : Recognizer σ) (chunks : List (List Nat))
    (s : AppState σ) : AppState σ :=
  let s1 := { s with audio_data := [] }
  let res := capture_loop R s1.recognizer [] chunks
  let fin := R.finalResult res.1
  { s1 with audio_data := res.2, recognizer := fin.1, text_box := fin.2 }

/-- One complete push-to-talk session: the user presses (start), the capture
thread reads `chunks` while the flag is set, the user releases (stop), the
loop observes the cleared flag, and the tail of `record_microphone` runs.
The final state has `is_recording = false`: the session is back in Idle. -/
def ptt_session {σ : Type} (R : Recognizer σ) (chunks : List (List Nat))
    (s : AppState σ) : AppState σ :=
  record_microphone R chunks
    (stop_walkie_talkie_recording (start_walkie_talkie_recording s))

/-! ### Concrete collaborator instances used to evaluate the model -/

/-- A stateless recognizer that never reports an utterance boundary. -/
def unitRec : Recognizer Unit :=
  { acceptWaveform := fun _ _ => ((), false)
    result := fun _ => ((), "r")
    finalResult := fun _ => ((), "f") }

/-- A small environment: every file holds the bytes `[1, 2]`, ffmpeg succeeds
with exit status 0 and output `[9]`, recognizer `unitRec`. -/
def exEnv : FileEnv Unit :=
  { readBytes := fun _ => [1, 2]
    ffmpeg := fun _ => Except.ok (0, [9])
    R := unitRec }

/-- A deterministic but stateful recognizer: the state counts bytes accepted
since the last `Result()`, and the boundary flag fires once eight bytes have
accumulated. -/
def countRec : Recognizer Nat :=
  { acceptWaveform := fun n d => (n + d.length, decide (8 ≤ n + d.length))
    result := fun _ => (0, "four zeros")
    finalResult := fun _ => (0, "") }

/-- Environment around `countRec`: every file holds four bytes. -/
def countEnv : FileEnv Nat :=
  { readBytes := fun _ => [0, 0, 0, 0]
    ffmpeg := fun _ => Except.ok (0, [])
    R := countRec }

/-- Environment whose ffmpeg exits with status 1 and empty stdout. -/
def badEnv : FileEnv Unit :=
  { readBytes := fun _ => []
    ffmpeg := fun _ => Except.ok (1, [])
    R := unitRec }

/-- Environment whose ffmpeg invocation raises (executable missing). -/
def noffEnv : FileEnv Unit :=
  { readBytes := fun _ => []
    ffmpeg := fun _ => Except.error "ffmpeg missing"
    R := unitRec }

/-- A recognizer whose successful transcript happens to start with
`"Error:"`. -/
def errRec : Recognizer Unit :=
  { acceptWaveform := fun _ _ => ((), true)
    result := fun _ => ((), "Error: mic")
    finalResult := fun _ => ((), "") }

/-- Environment around `errRec`. -/
def errEnv : FileEnv Unit :=
  { readBytes := fun _ => [7]
    ffmpeg := fun _ => Except.ok (0, [])
    R := errRec }

/-- A grammar engine whose calls always raise. -/
def badTool : GrammarEngine :=
  { check := fun _ => Except.error "LanguageTool crashed"
    correct := fun _ => Except.error "LanguageTool crashed" }

/-- A grammar engine that finds no issues. -/
def cleanTool : GrammarEngine :=
  { check := fun _ => Except.ok []
    correct := fun _ => Except.ok "unused" }

/-- A grammar engine that finds one issue and corrects to a fixed string. -/
def fixTool : GrammarEngine :=
  { check := fun _ => Except.ok ["issue"]
    correct := fun _ => Except.ok "Hello there." }

/-- The application state right after startup. -/
def s0 : AppState Unit :=
  { is_recording := false, audio_data := [], recognizer := ()
    text_box := "", placeholder_box := "" }

/-- Panes holding stale content from an earlier interaction. -/
def ui0 : UIState := { text_box := "old", placeholder_box := "older" }

/-- The byte buffer the task ends up feeding to the recognizer: the file's
own bytes for a `.wav` extension, ffmpeg's stdout otherwise; `none` when the
ffmpeg invocation raised and no buffer was ever obtained. -/
def obtainedBytes {σ : Type} (E : FileEnv σ) (path : String) : Option (List Nat) :=
  if pyLower (splitextExt path) ≠ ".wav" then
    match E.ffmpeg path with
    | Except.error _ => none
    | Except.ok out => some out.2
  else some (E.readBytes path)

/-! ### Helper lemmas -/

/-- The trace of one batch feed: a single `accept` of the whole buffer,
followed by `result` exactly when the boundary flag fired. -/
theorem feedRecognizer_trace {σ : Type} (R : Recognizer σ) (rec : σ) (data : List Nat) :
    (feedRecognizer R rec data).2.2 =
      if (R.acceptWaveform rec data).2 then [FileAction.accept data, FileAction.result]
      else [FileAction.accept data] := by
  unfold feedRecognizer
  split <;> simp_all

/-- The text of one batch feed: the `Result()` text when the boundary flag
fired, the empty string otherwise. -/
theorem feedRecognizer_text {σ : Type} (R : Recognizer σ) (rec : σ) (data : List Nat) :
    (feedRecognizer R rec data).1 =
      if (R.acceptWaveform rec data).2 then (R.result (R.acceptWaveform rec data).1).2
      else "" := by
  unfold feedRecognizer
  split <;> simp_all

/-- `FinalResult()` is never among a batch feed's recognizer calls. -/
theorem feedRecognizer_no_finalResult {σ : Type} (R : Recognizer σ) (rec : σ)
    (data : List Nat) : FileAction.finalResult ∉ (feedRecognizer R rec data).2.2 := by
  rw [feedRecognizer_trace]
  split <;> simp

/-- The `accept` calls of a batch feed are exactly one, on the whole buffer. -/
theorem feedRecognizer_accepts {σ : Type} (R : Recognizer σ) (rec : σ) (data : List Nat) :
    ((feedRecognizer R rec data).2.2).filter isAccept = [FileAction.accept data] := by
  rw [feedRecognizer_trace]
  split <;> simp [isAccept]

/-- `load_audio_task` on a `.wav` extension: read the file, feed it. -/
theorem load_audio_task_wav {σ : Type} (E : FileEnv σ) (rec : σ) (path : String)
    (hext : pyLower (splitextExt path) = ".wav") :
    load_audio_task E rec path =
      (((feedRecognizer E.R rec (E.readBytes path)).1,
        (feedRecognizer E.R rec (E.readBytes path)).2.1),
       FileAction.readFile path :: (feedRecognizer E.R rec (E.readBytes path)).2.2) := by
  unfold load_audio_task load_audio_body
  simp [hext]

/-- `load_audio_task` on a non-`.wav` extension when ffmpeg completes:
invoke ffmpeg, feed its stdout (exit status and emptiness unchecked). -/
theorem load_audio_task_ffmpeg_ok {σ : Type} (E : FileEnv σ) (rec : σ) (path : String)
    (rc : Int) (out : List Nat) (hext : pyLower (splitextExt path) ≠ ".wav")
    (hff : E.ffmpeg path = Except.ok (rc, out)) :
    load_audio_task E rec path =
      (((feedRecognizer E.R rec out).1, (feedRecognizer E.R rec out).2.1),
       FileAction.runProc (ffmpegArgs path) :: (feedRecognizer E.R rec out).2.2) := by
  unfold load_audio_task load_audio_body
  simp [hext, hff]

/-- `load_audio_task` on a non-`.wav` extension when the ffmpeg invocation
raises: the `except` clause yields the error string, the recognizer is never
fed. -/
theorem load_audio_task_ffmpeg_error {σ : Type} (E : FileEnv σ) (rec : σ) (path : String)
    (e : String) (hext : pyLower (splitextExt path) ≠ ".wav")
    (hff : E.ffmpeg path = Except.error e) :
    load_audio_task E rec path =
      (("Error: " ++ e, rec), [FileAction.runProc (ffmpegArgs path)]) := by
  unfold load_audio_task load_audio_body
  simp [hext, hff]

/-- The audio accumulated by the capture loop is the initial accumulator
followed by the captured chunks in order. -/
theorem capture_loop_snd {σ : Type} (R : Recognizer σ) (chunks : List (List Nat)) :
    ∀ (rec : σ) (acc : List Nat), (capture_loop R rec acc chunks).2 = acc ++ chunks.flatten := by
  induction chunks with
  | nil => intro rec acc; simp [capture_loop]
  | cons d ds ih => intro rec acc; simp [capture_loop, ih, List.append_assoc]

/-- Stripping a string of whitespace only yields the empty string. -/
theorem pyStrip_of_all_space {s : String} (h : s.toList.all isPySpace = true) :
    pyStrip s = "" := by
  have h1 : List.dropWhile isPySpace s.toList = [] :=
    List.dropWhile_eq_nil_iff.mpr (by simpa [List.all_eq_true] using h)
  unfold pyStrip
  rw [h1]
  rfl

/-! ### Claim theorems -/

/-- C1 (counterexample): the claimed invariant "accumulatedAudio is empty
whenever the session is Idle" fails on the code.  After a full push-to-talk
session that captured one chunk `[1, 2]`, the session is back in Idle
(`is_recording = false`) but the accumulated buffer still holds the chunk:
`record_microphone` clears the buffer only at the START of a session, never
on stop. -/
theorem C1_counterexample :
    (ptt_session unitRec [[1, 2]] s0).is_recording = false ∧
    (ptt_session unitRec [[1, 2]] s0).audio_data ≠ [] := by
  decide

/-- C1 (amended): the buffer is cleared at the start of the capture loop, not
on stop; when a session returns to Idle the accumulated buffer equals the
concatenation of exactly that session's chunks (so it is empty only for a
zero-chunk session), independent of whatever the buffer held before. -/
theorem C1_amended {σ : Type} (R : Recognizer σ) (chunks : List (List Nat))
    (s : AppState σ) :
    (ptt_session R chunks s).is_recording = false ∧
    (ptt_session R chunks s).audio_data = chunks.flatten := by
  simp [ptt_session, record_microphone, start_walkie_talkie_recording,
        stop_walkie_talkie_recording, reset_app, capture_loop_snd]

/-- C2 (counterexample): the batch pipeline does NOT call `finalize()`
(`FinalResult()`) after its single `acceptChunk`.  On a `.wav` file holding
bytes `[1, 2]` with a recognizer reporting no utterance boundary, the full
trace is one read and one accept — no finalization call of any kind — and
the returned text is `""`, not the product of a finalization. -/
theorem C2_counterexample :
    (load_audio_task exEnv () "a.wav").2 =
      [FileAction.readFile "a.wav", FileAction.accept [1, 2]] ∧
    FileAction.finalResult ∉ (load_audio_task exEnv () "a.wav").2 := by
  decide

/-- C2 (amended): the whole obtained buffer is fed through exactly one
`AcceptWaveform` call, but no `FinalResult()` ever follows; instead, when
`AcceptWaveform` reports an utterance boundary the pipeline reads `Result()`
and returns its text, and otherwise it returns the empty string. -/
theorem C2_amended {σ : Type} (E : FileEnv σ) (rec : σ) (path : String)
    (data : List Nat) (h : obtainedBytes E path = some data) :
    ((load_audio_task E rec path).2).filter isAccept = [FileAction.accept data] ∧
    FileAction.finalResult ∉ (load_audio_task E rec path).2 ∧
    (load_audio_task E rec path).1.1 =
      (if (E.R.acceptWaveform rec data).2 then (E.R.result (E.R.acceptWaveform rec data).1).2
       else "") := by
  by_cases hext : pyLower (splitextExt path) = ".wav"
  · have hd : E.readBytes path = data := by
      simpa [obtainedBytes, hext] using h
    rw [load_audio_task_wav E rec path hext]
    refine ⟨?_, ?_, ?_⟩
    · simp [isAccept, feedRecognizer_accepts, hd]
    · simpa [isAccept] using feedRecognizer_no_finalResult E.R rec (E.readBytes path)
    · simp [feedRecognizer_text, hd]
  · cases hff : E.ffmpeg path with
    | error e =>
        exfalso
        simp [obtainedBytes, hext, hff] at h
    | ok pr =>
        obtain ⟨rc, out⟩ := pr
        have hd : out = data := by
          simpa [obtainedBytes, hext, hff] using h
        rw [load_audio_task_ffmpeg_ok E rec path rc out hext hff]
        refine ⟨?_, ?_, ?_⟩
        · simp [isAccept, feedRecognizer_accepts, hd]
        · simpa [isAccept] using feedRecognizer_no_finalResult E.R rec out
        · simp [feedRecognizer_text, hd]

/-- C2 (witness): a concrete `.wav` run discharging the amended theorem's
hypothesis. -/
theorem C2_amended_witness :
    obtainedBytes exEnv "a.wav" = some [1, 2] ∧
    (((load_audio_task exEnv () "a.wav").2).filter isAccept = [FileAction.accept [1, 2]] ∧
     FileAction.finalResult ∉ (load_audio_task exEnv () "a.wav").2 ∧
     (load_audio_task exEnv () "a.wav").1.1 =
       (if (exEnv.R.acceptWaveform () [1, 2]).2 then
          (exEnv.R.result (exEnv.R.acceptWaveform () [1, 2]).1).2
        else "")) :=
  ⟨by decide, C2_amended exEnv () "a.wav" [1, 2] (by decide)⟩

/-- C3 (counterexample): an error raised by the grammar engine DOES escape
the worker, and the interactive surface then receives zero outcomes for the
submitted task: `run_in_thread` has no guard, and `submit_text`'s task
closure has no `try`/`except`, so a raising `check` kills the worker before
the callback is ever scheduled. -/
theorem C3_counterexample :
    run_in_thread (grammar_func badTool "hello") = [] ∧
    (run_in_thread (grammar_func badTool "hello")).length ≠ 1 := by
  decide

/-- C3 (amended): file-transcription tasks wrap their whole body in
`try`/`except` and always deliver exactly one outcome; grammar-review tasks
have no guard, so they deliver exactly one outcome precisely when the engine
calls do not raise (and zero outcomes otherwise). -/
theorem C3_amended :
    (∀ (σ : Type) (E : FileEnv σ) (rec : σ) (path : String),
      (run_in_thread (file_func E rec path)).length = 1) ∧
    (∀ (G : GrammarEngine) (raw : String),
      (run_in_thread (grammar_func G raw)).length = 1 ↔
        ∃ r, grammar_func G raw = Except.ok r) := by
  constructor
  · intro σ E rec path
    rfl
  · intro G raw
    cases h : grammar_func G raw with
    | ok r => simp [run_in_thread, h]
    | error e => simp [run_in_thread, h]

/-- C3 (witness): a concrete file-transcription submission delivering
exactly one outcome. -/
theorem C3_amended_witness :
    (run_in_thread (file_func exEnv () "a.wav")).length = 1 :=
  C3_amended.1 Unit exEnv () "a.wav"

/-- C4: submitting an empty or whitespace-only input is rejected on the
interactive thread with the "No Content" warning (the code's surface for
`EmptyInputError`) before any background work: no worker task is started and
the grammar engine's `check` and `correct` are never invoked. -/
theorem C4_empty_input_schedules_nothing (G : GrammarEngine) (input : String)
    (ui : UIState) (h : input.toList.all isPySpace = true) :
    submit_text G input ui =
      { ui := ui, dialog := Dialog.showwarning "No Content" "The input box is empty.",
        engineCalls := [], tasksStarted := 0 } := by
  have hs : pyStrip input = "" := pyStrip_of_all_space h
  simp [submit_text, hs]

/-- C4 (witness): a whitespace-only input against an engine that would raise
if it were ever called. -/
theorem C4_witness :
    ("  \t ".toList.all isPySpace = true) ∧
    submit_text badTool "  \t " ui0 =
      { ui := ui0, dialog := Dialog.showwarning "No Content" "The input box is empty.",
        engineCalls := [], tasksStarted := 0 } :=
  ⟨by decide, C4_empty_input_schedules_nothing badTool "  \t " ui0 (by decide)⟩

/-- C5: for a non-empty (stripped) input, `check` is invoked on the stripped
text; zero issues display the `Clean` sentinel, and one or more issues cause
`correct` to be invoked on the same text, whose output is displayed as the
`Corrected` verdict. -/
theorem C5_check_then_verdict (G : GrammarEngine) (input : String) (ui : UIState)
    (h : pyStrip input ≠ "") :
    EngineCall.check (pyStrip input) ∈ (submit_text G input ui).engineCalls ∧
    (G.check (pyStrip input) = Except.ok [] →
      (submit_text G input ui).ui.placeholder_box = displayVerdict GrammarVerdict.clean) ∧
    (∀ (m : String) (ms : List String) (c : String),
      G.check (pyStrip input) = Except.ok (m :: ms) →
      G.correct (pyStrip input) = Except.ok c →
      (submit_text G input ui).ui.placeholder_box =
        displayVerdict (GrammarVerdict.corrected c) ∧
      EngineCall.correct (pyStrip input) ∈ (submit_text G input ui).engineCalls) := by
  refine ⟨?_, ?_, ?_⟩
  · cases hc : G.check (pyStrip input) with
    | error e => simp [submit_text, h, grammar_task, hc]
    | ok ms =>
      cases ms with
      | nil => simp [submit_text, h, grammar_task, hc]
      | cons m ms =>
        cases hco : G.correct (pyStrip input) with
        | error e => simp [submit_text, h, grammar_task, hc, hco]
        | ok c => simp [submit_text, h, grammar_task, hc, hco]
  · intro hc
    simp [submit_text, h, grammar_task, hc, grammar_on_complete, displayVerdict]
  · intro m ms c hc hco
    simp [submit_text, h, grammar_task, hc, hco, grammar_on_complete, displayVerdict]

/-- C5 (witness): a clean engine yields the `Clean` sentinel; an engine with
one issue yields its correction and a `correct` call on the same text. -/
theorem C5_witness :
    (submit_text cleanTool "hello" ui0).ui.placeholder_box =
      displayVerdict GrammarVerdict.clean ∧
    (submit_text fixTool "hello" ui0).ui.placeholder_box =
      displayVerdict (GrammarVerdict.corrected "Hello there.") ∧
    EngineCall.correct (pyStrip "hello") ∈ (submit_text fixTool "hello" ui0).engineCalls :=
  ⟨(C5_check_then_verdict cleanTool "hello" ui0 (by decide)).2.1 rfl,
   ((C5_check_then_verdict fixTool "hello" ui0 (by decide)).2.2 "issue" [] "Hello there."
      rfl rfl).1,
   ((C5_check_then_verdict fixTool "hello" ui0 (by decide)).2.2 "issue" [] "Hello there."
      rfl rfl).2⟩

/-- C6: the transcoder is invoked if and only if the path's lowercased
extension is not `.wav`; a `.wav` path is read directly and its bytes fed
unchanged with no process spawned, while any other extension spawns ffmpeg
with exactly the 16000 Hz / 1-channel / wav-container / stdout argument
vector and never reads the file directly. -/
theorem C6_transcode_iff {σ : Type} (E : FileEnv σ) (rec : σ) (path : String) :
    (pyLower (splitextExt path) = ".wav" →
      (∀ a, FileAction.runProc a ∉ (load_audio_task E rec path).2) ∧
      FileAction.accept (E.readBytes path) ∈ (load_audio_task E rec path).2) ∧
    (pyLower (splitextExt path) ≠ ".wav" →
      FileAction.runProc ["ffmpeg", "-i", path, "-ar", "16000", "-ac", "1", "-f", "wav", "pipe:1"]
        ∈ (load_audio_task E rec path).2 ∧
      ∀ q, FileAction.readFile q ∉ (load_audio_task E rec path).2) := by
  constructor
  · intro hext
    rw [load_audio_task_wav E rec path hext]
    constructor
    · intro a
      rw [List.mem_cons]
      rintro (hh | hh)
      · exact FileAction.noConfusion hh
      · rw [feedRecognizer_trace] at hh
        revert hh
        split <;> simp
    · rw [List.mem_cons, feedRecognizer_trace]
      split <;> simp
  · intro hext
    cases hff : E.ffmpeg path with
    | error e =>
        rw [load_audio_task_ffmpeg_error E rec path e hext hff]
        exact ⟨by simp [ffmpegArgs], by simp⟩
    | ok pr =>
        obtain ⟨rc, out⟩ := pr
        rw [load_audio_task_ffmpeg_ok E rec path rc out hext hff]
        constructor
        · simp [ffmpegArgs]
        · intro q
          rw [List.mem_cons]
          rintro (hh | hh)
          · exact FileAction.noConfusion hh
          · rw [feedRecognizer_trace] at hh
            revert hh
            split <;> simp

/-- C6 (witness): an uppercase `.WAV` path feeds the file's own bytes with no
process; an `.mp3` path spawns ffmpeg with the specified arguments. -/
theorem C6_witness :
    FileAction.accept (exEnv.readBytes "b.WAV") ∈ (load_audio_task exEnv () "b.WAV").2 ∧
    FileAction.runProc ["ffmpeg", "-i", "a.mp3", "-ar", "16000", "-ac", "1", "-f", "wav", "pipe:1"]
      ∈ (load_audio_task exEnv () "a.mp3").2 :=
  ⟨((C6_transcode_iff exEnv () "b.WAV").1 (by decide)).2,
   ((C6_transcode_iff exEnv () "a.mp3").2 (by decide)).1⟩

/-- C7 (counterexample): the transcoder's exit status and output are never
checked.  With ffmpeg exiting with status 1 and producing empty stdout on an
`.mp3` path, the pipeline does not fail: it feeds the empty byte buffer to
the recognizer and returns a non-error outcome. -/
theorem C7_counterexample :
    badEnv.ffmpeg "a.mp3" = Except.ok (1, []) ∧
    FileAction.accept [] ∈ (load_audio_task badEnv () "a.mp3").2 ∧
    pyStartsWith (load_audio_task badEnv () "a.mp3").1.1 "Error:" = false :=
  ⟨rfl, by decide, by decide⟩

/-- C7 (amended): only a RAISING transcoder invocation (e.g. a missing
ffmpeg executable) produces the error outcome without feeding the
recognizer; when the process completes, its stdout bytes are fed to the
recognizer regardless of exit status or emptiness — a non-zero exit or empty
output is not detected. -/
theorem C7_amended {σ : Type} (E : FileEnv σ) (rec : σ) (path : String)
    (hext : pyLower (splitextExt path) ≠ ".wav") :
    (∀ (rc : Int) (out : List Nat), E.ffmpeg path = Except.ok (rc, out) →
      FileAction.accept out ∈ (load_audio_task E rec path).2 ∧
      (load_audio_task E rec path).1.1 =
        (if (E.R.acceptWaveform rec out).2 then (E.R.result (E.R.acceptWaveform rec out).1).2
         else "")) ∧
    (∀ e : String, E.ffmpeg path = Except.error e →
      (load_audio_task E rec path).1.1 = "Error: " ++ e ∧
      ∀ d, FileAction.accept d ∉ (load_audio_task E rec path).2) := by
  constructor
  · intro rc out hff
    rw [load_audio_task_ffmpeg_ok E rec path rc out hext hff]
    refine ⟨?_, by simp [feedRecognizer_text]⟩
    rw [List.mem_cons, feedRecognizer_trace]
    split <;> simp
  · intro e hff
    rw [load_audio_task_ffmpeg_error E rec path e hext hff]
    exact ⟨rfl, by simp⟩

/-- C7 (witness): a completed-but-failed transcode feeds empty bytes; a
raising transcode yields the error-message outcome. -/
theorem C7_amended_witness :
    FileAction.accept [] ∈ (load_audio_task badEnv () "a.mp3").2 ∧
    (load_audio_task noffEnv () "a.mp3").1.1 = "Error: " ++ "ffmpeg missing" :=
  ⟨((C7_amended badEnv () "a.mp3" (by decide)).1 1 [] rfl).1,
   ((C7_amended noffEnv () "a.mp3" (by decide)).2 "ffmpeg missing" rfl).1⟩

/-- C8 (counterexample): two successive runs on the same bytes and format can
yield different transcripts even with a deterministic recognizer, because
the shared recognizer instance carries state from the first run into the
second: with the byte-counting recognizer `countRec`, the first run of the
same `.wav` file returns `""` and the second returns `"four zeros"`. -/
theorem C8_counterexample :
    (load_audio_task countEnv 0 "a.wav").1.1 = "" ∧
    (load_audio_task countEnv ((load_audio_task countEnv 0 "a.wav").1.2) "a.wav").1.1 =
      "four zeros" ∧
    (load_audio_task countEnv 0 "a.wav").1.1 ≠
      (load_audio_task countEnv ((load_audio_task countEnv 0 "a.wav").1.2) "a.wav").1.1 := by
  decide

/-- C8 (amended): a run of the batch pipeline is a deterministic function of
the input path, the environment, and the recognizer's pre-state; hence two
successive runs yield identical results whenever the first run leaves the
recognizer state unchanged.  In general the first run mutates the shared
recognizer, and the second run may differ. -/
theorem C8_amended {σ : Type} (E : FileEnv σ) (rec : σ) (path : String)
    (h : (load_audio_task E rec path).1.2 = rec) :
    load_audio_task E ((load_audio_task E rec path).1.2) path =
      load_audio_task E rec path := by
  rw [h]

/-- C8 (witness): with the stateless recognizer the two successive runs
agree. -/
theorem C8_amended_witness :
    load_audio_task exEnv ((load_audio_task exEnv () "a.wav").1.2) "a.wav" =
      load_audio_task exEnv () "a.wav" :=
  C8_amended exEnv () "a.wav" rfl

/-- C9: the completion handler classifies by the `"Error:"` prefix alone, so
whenever the task's returned text starts with `"Error:"` — including a
genuine transcript that happens to — the text is shown in an error dialog
and is never written to the input pane, which retains the
"Processing audio file..." placeholder. -/
theorem C9_error_prefix_shadows {σ : Type} (E : FileEnv σ) (rec : σ) (path : String)
    (ui : UIState)
    (h : pyStartsWith (load_audio_task E rec path).1.1 "Error:" = true) :
    (load_audio_file E rec path ui).1 =
      { text_box := "Processing audio file...", placeholder_box := ui.placeholder_box } ∧
    (load_audio_file E rec path ui).2.1 =
      Dialog.showerror "Error" (load_audio_task E rec path).1.1 := by
  unfold load_audio_file load_on_complete
  simp [h]

/-- C9 (witness): a recognizer whose SUCCESSFUL transcript is the string
`"Error: mic"`; the transcript is diverted to an error dialog and the pane
keeps the placeholder. -/
theorem C9_witness :
    pyStartsWith (load_audio_task errEnv () "x.wav").1.1 "Error:" = true ∧
    ((load_audio_file errEnv () "x.wav" ui0).1 =
      { text_box := "Processing audio file...", placeholder_box := ui0.placeholder_box } ∧
     (load_audio_file errEnv () "x.wav" ui0).2.1 =
      Dialog.showerror "Error" (load_audio_task errEnv () "x.wav").1.1) :=
  ⟨by decide, C9_error_prefix_shadows errEnv () "x.wav" ui0 (by decide)⟩

/-- C10: every start of a push-to-talk recording clears BOTH panes via
`reset_app` before inserting the recording placeholder into the input pane:
whatever transcript and grammar verdict were displayed are discarded. -/
theorem C10_start_clears_both_panes {σ : Type} (s : AppState σ) :
    (start_walkie_talkie_recording s).text_box = "Recording... Speak now." ∧
    (start_walkie_talkie_recording s).placeholder_box = "" ∧
    (start_walkie_talkie_recording s).is_recording = true :=
  ⟨rfl, rfl, rfl⟩
